import Mathlib

/-!
# Verification of the enhanced-pubmed-mcp-server core

Shallow embedding of the core of `src/pubmed-node.js`:
the chunked batch fetcher (`fetchDetailedArticles`), the record normalizer
(`extractEnhancedArticleInfo`), the presenter (`formatEnhancedArticle`),
the input validation of the tool handlers (`handleSearchPubmed`,
`handleGetFullAbstract`, `handleSearchPmcFulltext`), the PMC search loop
(`search_pmc`), and the rate limiter (`rateLimitedRequest`).

Remote I/O (`makeNcbiRequest` + the response parsers) is modelled by explicit
oracle functions passed as parameters; each embedded operation additionally
returns the trace of remote calls it issued, so that "no remote call" and
"exactly these batches" properties are statable.
-/

/-- One entry of the `failedChunks` accumulator built by `fetchDetailedArticles`
(src/pubmed-node.js lines 267–274): the chunk's position, its id list and the
error message. -/
structure FailedChunk where
  startIndex : Nat
  endIndex : Nat
  pmids : List String
  error : String
deriving DecidableEq, Repr

/-- The observable outcome of one `fetchDetailedArticles` run: `articles` is the
merged list the function returns (line 289), `failedChunks` is the internal
accumulator that the source only logs (lines 274, 285–287), and `calls` is the
trace of efetch requests issued, one entry per chunk, in issue order. -/
structure FetchOutcome (α : Type) where
  articles : List α
  failedChunks : List FailedChunk
  calls : List (List String)
deriving DecidableEq, Repr

/-- The chunk loop of `fetchDetailedArticles` (lines 252–282): walk the id list
in contiguous chunks of at most 200 ids, issue one fetch per chunk, append the
parsed articles of a successful chunk, record a `FailedChunk` for a failing one
and continue.  `f` is the oracle standing for `makeNcbiRequest` composed with
`parsePubMedXml` on one chunk; `i` is the running start index of the loop.
`fuel` only bounds the recursion: any fuel ≥ the number of chunks (the caller
passes the list length, which always suffices) reproduces the loop exactly. -/
def fetchChunks (f : List String → Except String (List α)) :
    Nat → Nat → List String → FetchOutcome α
  | _, _, [] => ⟨[], [], []⟩
  | 0, _, _ :: _ => ⟨[], [], []⟩
  | fuel + 1, i, x :: xs =>
    match f ((x :: xs).take 200) with
    | .ok arts =>
        ⟨arts ++ (fetchChunks f fuel (i + 200) ((x :: xs).drop 200)).articles,
         (fetchChunks f fuel (i + 200) ((x :: xs).drop 200)).failedChunks,
         (x :: xs).take 200 :: (fetchChunks f fuel (i + 200) ((x :: xs).drop 200)).calls⟩
    | .error e =>
        ⟨(fetchChunks f fuel (i + 200) ((x :: xs).drop 200)).articles,
         ⟨i, i + ((x :: xs).take 200).length - 1, (x :: xs).take 200, e⟩ ::
           (fetchChunks f fuel (i + 200) ((x :: xs).drop 200)).failedChunks,
         (x :: xs).take 200 :: (fetchChunks f fuel (i + 200) ((x :: xs).drop 200)).calls⟩

/-- Embedding of `fetchDetailedArticles` (lines 245–290), with its full observable state:
empty input short-circuits to an empty outcome with no calls (line 246),
otherwise the chunk loop runs over the whole list. -/
def fetchDetailedArticlesRun (f : List String → Except String (List α))
    (pmidList : List String) : FetchOutcome α :=
  if pmidList.isEmpty then ⟨[], [], []⟩
  else fetchChunks f pmidList.length 0 pmidList

/-- The value `fetchDetailedArticles` actually returns to its caller
(line 289): only the merged article list. -/
def fetchDetailedArticles (f : List String → Except String (List α))
    (pmidList : List String) : List α :=
  (fetchDetailedArticlesRun f pmidList).articles

theorem fetchChunks_calls_join (f : List String → Except String (List α)) :
    ∀ (fuel i : Nat) (l : List String), l.length ≤ fuel →
      ((fetchChunks f fuel i l).calls).flatten = l := by
  intro fuel
  induction fuel with
  | zero =>
    intro i l h
    cases l with
    | nil => rfl
    | cons x xs => simp at h
  | succ n ih =>
    intro i l h
    cases l with
    | nil => rfl
    | cons x xs =>
      have hrest : ((x :: xs).drop 200).length ≤ n := by
        simp only [List.length_drop, List.length_cons] at *
        omega
      cases hf : f ((x :: xs).take 200) with
      | ok arts =>
        simp only [fetchChunks, hf]
        rw [List.flatten_cons, ih (i + 200) _ hrest, List.take_append_drop]
      | error e =>
        simp only [fetchChunks, hf]
        rw [List.flatten_cons, ih (i + 200) _ hrest, List.take_append_drop]

theorem fetchChunks_calls_bounded (f : List String → Except String (List α)) :
    ∀ (fuel i : Nat) (l : List String),
      ∀ c ∈ (fetchChunks f fuel i l).calls, c ≠ [] ∧ c.length ≤ 200 := by
  intro fuel
  induction fuel with
  | zero =>
    intro i l c hc
    cases l with
    | nil => simp [fetchChunks] at hc
    | cons x xs => simp [fetchChunks] at hc
  | succ n ih =>
    intro i l c hc
    cases l with
    | nil => simp [fetchChunks] at hc
    | cons x xs =>
      cases hf : f ((x :: xs).take 200) with
      | ok arts =>
        simp only [fetchChunks, hf, List.mem_cons] at hc
        rcases hc with hc | hc
        · subst hc
          constructor
          · simp
          · simp
        · exact ih (i + 200) _ c hc
      | error e =>
        simp only [fetchChunks, hf, List.mem_cons] at hc
        rcases hc with hc | hc
        · subst hc
          constructor
          · simp
          · simp
        · exact ih (i + 200) _ c hc

theorem fetchChunks_calls_length (f : List String → Except String (List α)) :
    ∀ (fuel i : Nat) (l : List String), l.length ≤ fuel →
      ((fetchChunks f fuel i l).calls).length = (l.length + 199) / 200 := by
  intro fuel
  induction fuel with
  | zero =>
    intro i l h
    cases l with
    | nil => rfl
    | cons x xs => simp at h
  | succ n ih =>
    intro i l h
    cases l with
    | nil => rfl
    | cons x xs =>
      have hrest : ((x :: xs).drop 200).length ≤ n := by
        simp only [List.length_drop, List.length_cons] at *
        omega
      have hlen : ((x :: xs).drop 200).length = (x :: xs).length - 200 := by
        simp
      have harith : ((x :: xs).length - 200 + 199) / 200 + 1
          = ((x :: xs).length + 199) / 200 := by
        have hpos : 0 < (x :: xs).length := by simp
        omega
      cases hf : f ((x :: xs).take 200) with
      | ok arts =>
        simp only [fetchChunks, hf, List.length_cons]
        rw [ih (i + 200) _ hrest, hlen, harith]
        simp
      | error e =>
        simp only [fetchChunks, hf, List.length_cons]
        rw [ih (i + 200) _ hrest, hlen, harith]
        simp

theorem fetchChunks_articles_eq (f : List String → Except String (List α)) :
    ∀ (fuel i : Nat) (l : List String),
      (fetchChunks f fuel i l).articles
        = (((fetchChunks f fuel i l).calls).filterMap
            (fun c => match f c with | .ok a => some a | .error _ => none)).flatten := by
  intro fuel
  induction fuel with
  | zero =>
    intro i l
    cases l with
    | nil => rfl
    | cons x xs => rfl
  | succ n ih =>
    intro i l
    cases l with
    | nil => rfl
    | cons x xs =>
      cases hf : f ((x :: xs).take 200) with
      | ok arts =>
        simp only [fetchChunks, hf, List.filterMap_cons, List.flatten_cons]
        rw [ih (i + 200)]
      | error e =>
        simp only [fetchChunks, hf, List.filterMap_cons]
        rw [ih (i + 200)]

theorem fetchChunks_failed_eq (f : List String → Except String (List α)) :
    ∀ (fuel i : Nat) (l : List String),
      ((fetchChunks f fuel i l).failedChunks).map (fun fc => (fc.pmids, fc.error))
        = ((fetchChunks f fuel i l).calls).filterMap
            (fun c => match f c with | .error e => some (c, e) | .ok _ => none) := by
  intro fuel
  induction fuel with
  | zero =>
    intro i l
    cases l with
    | nil => rfl
    | cons x xs => rfl
  | succ n ih =>
    intro i l
    cases l with
    | nil => rfl
    | cons x xs =>
      cases hf : f ((x :: xs).take 200) with
      | ok arts =>
        simp only [fetchChunks, hf, List.filterMap_cons]
        exact ih (i + 200) _
      | error e =>
        simp only [fetchChunks, hf, List.filterMap_cons, List.map_cons]
        rw [ih (i + 200)]

theorem fetchChunks_calls_indep (f g : List String → Except String (List α)) :
    ∀ (fuel i : Nat) (l : List String),
      (fetchChunks f fuel i l).calls = (fetchChunks g fuel i l).calls := by
  intro fuel
  induction fuel with
  | zero =>
    intro i l
    cases l with
    | nil => rfl
    | cons x xs => rfl
  | succ n ih =>
    intro i l
    cases l with
    | nil => rfl
    | cons x xs =>
      cases hf : f ((x :: xs).take 200) with
      | ok arts =>
        cases hg : g ((x :: xs).take 200) with
        | ok arts2 =>
          simp only [fetchChunks, hf, hg]
          rw [ih (i + 200)]
        | error e2 =>
          simp only [fetchChunks, hf, hg]
          rw [ih (i + 200)]
      | error e =>
        cases hg : g ((x :: xs).take 200) with
        | ok arts2 =>
          simp only [fetchChunks, hf, hg]
          rw [ih (i + 200)]
        | error e2 =>
          simp only [fetchChunks, hf, hg]
          rw [ih (i + 200)]

/-- Concrete oracle used to instantiate the batching theorem: every chunk
succeeds and parses to a one-element record list. -/
def fWitC1 : List String → Except String (List Nat) := fun c => .ok [c.length]

/-- A 201-id input, which the 200-per-chunk loop splits into two batches:
`List.replicate 200 "x"` and `["y"]`. -/
def idsTwoBatches : List String := List.replicate 200 "x" ++ ["y"]

/-- Oracle whose second batch (`["y"]`) fails. -/
def fFailSecond : List String → Except String (List Nat) :=
  fun c => if c = ["y"] then .error "boom" else .ok [c.length]

/-- Oracle whose second batch succeeds with zero records. -/
def fEmptySecond : List String → Except String (List Nat) :=
  fun c => if c = ["y"] then .ok [] else .ok [c.length]

/-- C1: `fetchDetailedArticles` on an empty id list yields an empty outcome
with zero remote calls; on any id list the issued batches, in order,
concatenate back to the input (contiguous batches, input order, issued
sequentially as a list fold), every batch is non-empty with at most 200 ids,
an input of 450 ids yields exactly 3 batches, and the returned record list is
the concatenation, in batch order, of the successful batches' parsed
records (a failing batch contributes nothing but never aborts the loop:
every batch of the input is issued regardless of earlier failures). -/
theorem claim_C1_batch_fetch (f : List String → Except String (List α))
    (pmidList : List String) :
    (pmidList = [] → fetchDetailedArticlesRun f pmidList = ⟨[], [], []⟩)
    ∧ ((fetchDetailedArticlesRun f pmidList).calls).flatten = pmidList
    ∧ (∀ c ∈ (fetchDetailedArticlesRun f pmidList).calls, c ≠ [] ∧ c.length ≤ 200)
    ∧ (pmidList.length = 450 →
        ((fetchDetailedArticlesRun f pmidList).calls).length = 3)
    ∧ (∀ g : List String → Except String (List α),
        (fetchDetailedArticlesRun f pmidList).calls
          = (fetchDetailedArticlesRun g pmidList).calls)
    ∧ fetchDetailedArticles f pmidList
        = (((fetchDetailedArticlesRun f pmidList).calls).filterMap
            (fun c => match f c with | .ok a => some a | .error _ => none)).flatten := by
  by_cases h : pmidList = []
  · subst h
    refine ⟨fun _ => rfl, rfl, ?_, ?_, fun g => rfl, rfl⟩
    · intro c hc
      simp [fetchDetailedArticlesRun] at hc
    · intro h450
      simp at h450
  · have hne : pmidList.isEmpty = false := by
      simp [List.isEmpty_iff, h]
    refine ⟨fun h' => absurd h' h, ?_, ?_, ?_, ?_, ?_⟩
    · simp only [fetchDetailedArticlesRun, hne, Bool.false_eq_true, if_false]
      exact fetchChunks_calls_join f _ 0 _ le_rfl
    · simp only [fetchDetailedArticlesRun, hne, Bool.false_eq_true, if_false]
      exact fetchChunks_calls_bounded f _ 0 _
    · intro h450
      simp only [fetchDetailedArticlesRun, hne, Bool.false_eq_true, if_false]
      rw [fetchChunks_calls_length f _ 0 _ le_rfl, h450]
    · intro g
      simp only [fetchDetailedArticlesRun, hne, Bool.false_eq_true, if_false]
      exact fetchChunks_calls_indep f g _ 0 _
    · simp only [fetchDetailedArticles, fetchDetailedArticlesRun, hne,
        Bool.false_eq_true, if_false]
      exact fetchChunks_articles_eq f _ 0 _

set_option maxRecDepth 8192 in
/-- Witness for C1: the empty input yields the empty outcome with no calls, and
a concrete 450-id input yields exactly 3 batches. -/
theorem claim_C1_batch_fetch_witness :
    fetchDetailedArticlesRun fWitC1 ([] : List String) = ⟨[], [], []⟩
    ∧ ((fetchDetailedArticlesRun fWitC1 (List.replicate 450 "1")).calls).length = 3 :=
  ⟨(claim_C1_batch_fetch fWitC1 []).1 rfl,
   (claim_C1_batch_fetch fWitC1 (List.replicate 450 "1")).2.2.2.1
     (by simp only [List.length_replicate])⟩

/-- C2 (amended): `fetchDetailedArticles` accumulates an internal ordered
failures manifest with exactly one entry per failed batch, carrying that
batch's id list and error message (so when batch 2 of 3 fails, the manifest
has exactly one entry, referencing batch 2's ids) — but this manifest is only
written to the console log; the value returned to the orchestrator is the
merged records list alone, carrying no failure count. -/
theorem claim_C2_failure_manifest (f : List String → Except String (List α))
    (pmidList : List String) :
    ((fetchDetailedArticlesRun f pmidList).failedChunks).map
        (fun fc => (fc.pmids, fc.error))
      = ((fetchDetailedArticlesRun f pmidList).calls).filterMap
          (fun c => match f c with | .error e => some (c, e) | .ok _ => none)
    ∧ fetchDetailedArticles f pmidList = (fetchDetailedArticlesRun f pmidList).articles := by
  constructor
  · by_cases h : pmidList.isEmpty
    · simp only [fetchDetailedArticlesRun, h, if_true]
      rfl
    · simp only [fetchDetailedArticlesRun, h, Bool.false_eq_true, if_false]
      exact fetchChunks_failed_eq f _ 0 _
  · rfl

set_option maxRecDepth 8192 in
/-- Witness for C2's amended theorem at a concrete failing run: with two
batches where the second fails, the manifest holds exactly the failed batch's
ids and message. -/
theorem claim_C2_failure_manifest_witness :
    ((fetchDetailedArticlesRun fFailSecond idsTwoBatches).failedChunks).map
        (fun fc => (fc.pmids, fc.error))
      = ((fetchDetailedArticlesRun fFailSecond idsTwoBatches).calls).filterMap
          (fun c => match fFailSecond c with | .error e => some (c, e) | .ok _ => none) :=
  (claim_C2_failure_manifest fFailSecond idsTwoBatches).1

set_option maxRecDepth 8192 in
/-- Counterexample to C2 as stated: the value `fetchDetailedArticles` returns
when batch 2 of 2 fails is identical to the value returned when batch 2
succeeds with zero records — the caller receives no failure entry, count or
message, so the failure information is not surfaced to the orchestrator. -/
theorem claim_C2_counterexample :
    fFailSecond ["y"] = .error "boom"
    ∧ fEmptySecond ["y"] = .ok []
    ∧ fetchDetailedArticles fFailSecond idsTwoBatches
        = fetchDetailedArticles fEmptySecond idsTwoBatches := by
  refine ⟨rfl, rfl, ?_⟩
  decide

/-- An author entry as consumed by `extractEnhancedArticleInfo` (lines
298–300): either an object carrying a `name` field (the shape produced by
`parsePubMedXml`, line 177) or a plain string. -/
inductive AuthorEntry
  | obj (name : String)
  | str (s : String)
deriving DecidableEq, Repr

/-- A raw article record as consumed by `extractEnhancedArticleInfo`.  Every
field is optional; `none` models an absent (`undefined`) JS field.  The two
flags are plain booleans, `false` standing for both JS `false` and an absent
(hence falsy) field. -/
structure RawArticle where
  uid : Option String := none
  title : Option String := none
  abstract : Option String := none
  authors : Option (List AuthorEntry) := none
  fulljournalname : Option String := none
  source : Option String := none
  pubdate : Option String := none
  pmcid : Option String := none
  elocationid : Option String := none
  keywords : Option (List String) := none
  mesh_terms : Option (List String) := none
  is_pmc : Bool := false
  pmc_available : Bool := false
deriving DecidableEq, Repr

/-- JS `x || d` on an optional string-valued field: an absent field and the
empty string are both falsy and fall back to `d`. -/
def jsOrString (o : Option String) (d : String) : String :=
  match o with
  | none => d
  | some s => if s = "" then d else s

/-- Author display value (lines 298–300): `typeof author === 'object' ?
author.name : author`. -/
def authorName : AuthorEntry → String
  | .obj n => n
  | .str s => s

/-- JS `String.prototype.startsWith`, expressed on the character list (so that
it is structurally recursive and machine-checkable on concrete inputs). -/
def strStartsWith (s p : String) : Bool := p.data.isPrefixOf s.data

/-- JS `String.prototype.endsWith`, expressed on the character list. -/
def strEndsWith (s p : String) : Bool := p.data.isSuffixOf s.data

/-- Drop the first `n` characters (JS `substring(n)` / `slice(n)`), expressed
on the character list. -/
def strDrop (s : String) (n : Nat) : String := ⟨s.data.drop n⟩

/-- Drop the last `n` characters, expressed on the character list. -/
def strDropRight (s : String) (n : Nat) : String := ⟨s.data.take (s.data.length - n)⟩

/-- Keep the first `n` characters (JS `substring(0, n)`), expressed on the
character list. -/
def strTake (s : String) (n : Nat) : String := ⟨s.data.take n⟩

/-- JS `String.prototype.trim`: remove leading and trailing whitespace. -/
def jsTrim (s : String) : String :=
  ⟨((s.data.dropWhile Char.isWhitespace).reverse.dropWhile Char.isWhitespace).reverse⟩

/-- The canonical flat article record produced by
`extractEnhancedArticleInfo` (lines 325–338).  All fields are plain strings
and booleans: no field of the result can be the absent-value sentinel. -/
structure ArticleRecord where
  pmid : String
  pmcid : String
  title : String
  authors : String
  journal : String
  pub_date : String
  doi : String
  abstract : String
  keywords : String
  mesh_terms : String
  is_open_access : Bool
  pmc_available : Bool
deriving DecidableEq, Repr

/-- Embedding of `extractEnhancedArticleInfo` (lines 293–339), field by field:
`||`-fallbacks for title/date/journal/pmid/pmcid/abstract, author list joined
with `", "` (falling back when the join is empty), `doi:` scheme stripped from
the cross-reference id, keyword and MeSH lists joined with `", "` (empty
string when absent), `pmc_available = Boolean(pmcid) || article.pmc_available`
and `is_open_access = article.is_pmc || pmcAvailable`. -/
def extractEnhancedArticleInfo (article : RawArticle) : ArticleRecord :=
  let title := jsOrString article.title "No title available"
  let joinedAuthors :=
    String.intercalate ", " ((article.authors.getD []).map authorName)
  let authorNames := if joinedAuthors = "" then "No authors listed" else joinedAuthors
  let pubDate := jsOrString article.pubdate "No date available"
  let journal :=
    jsOrString article.fulljournalname (jsOrString article.source "Unknown journal")
  let pmid := jsOrString article.uid "No PMID"
  let pmcid := jsOrString article.pmcid ""
  let doi0 := jsOrString article.elocationid ""
  let doi := if strStartsWith doi0 "doi:" then strDrop doi0 4 else doi0
  let abstract := jsOrString article.abstract "No abstract available"
  let keywords :=
    match article.keywords with
    | some l => String.intercalate ", " l
    | none => ""
  let meshTerms :=
    match article.mesh_terms with
    | some l => String.intercalate ", " l
    | none => ""
  let pmcAvailable := (pmcid != "") || article.pmc_available
  let isOpenAccess := article.is_pmc || pmcAvailable
  ⟨pmid, pmcid, title, authorNames, journal, pubDate, doi, abstract,
   keywords, meshTerms, isOpenAccess, pmcAvailable⟩

/-- The abstract shown by `formatEnhancedArticle` (line 361): truncated to the
first 800 characters plus `"..."` exactly when longer than 800. -/
def displayAbstract (abstract : String) : String :=
  if abstract.length > 800 then strTake abstract 800 ++ "..." else abstract

/-- Embedding of `formatEnhancedArticle` (lines 342–389) on an already-normalized record
(the source first normalizes raw input via `extractEnhancedArticleInfo`, whose
output has every field present, so the JS destructuring defaults of lines
345–358 never fire). -/
def formatEnhancedArticle (a : ArticleRecord) : String :=
  "\n**Title:** " ++ a.title
  ++ "\n**Authors:** " ++ a.authors
  ++ "\n**Journal:** " ++ a.journal ++ " (" ++ a.pub_date ++ ")"
  ++ "\n**PMID:** " ++ a.pmid
  ++ (if a.pmcid != "" then " | **PMCID:** " ++ a.pmcid else "")
  ++ (if a.doi != "" then " | **DOI:** " ++ a.doi else "")
  ++ "\n**Abstract:** " ++ displayAbstract a.abstract
  ++ (if a.pmc_available && (a.pmcid != "") then
        "\n🔓 **Full Text Available:** https://www.ncbi.nlm.nih.gov/pmc/articles/"
          ++ a.pmcid ++ "/"
      else "")
  ++ (if a.is_open_access then "\n✅ **Open Access**" else "")
  ++ "\n**PubMed Link:** https://pubmed.ncbi.nlm.nih.gov/" ++ a.pmid ++ "/"
  ++ (if a.keywords != "" then "\n**Keywords:** " ++ a.keywords else "")
  ++ (if a.mesh_terms != "" then "\n**MeSH Terms:** " ++ a.mesh_terms else "")
  ++ "\n---"

theorem strAppendAssoc (a b c : String) : a ++ b ++ c = a ++ (b ++ c) := by
  apply String.ext
  simp only [String.data_append, List.append_assoc]

theorem strLengthAppend (x y : String) : (x ++ y).length = x.length + y.length := by
  cases x with
  | mk xd =>
    cases y with
    | mk yd => simp [String.length, String.append, List.length_append]

/-- C3: `extractEnhancedArticleInfo` is total by construction (it maps into a
record of plain strings and booleans, so no output field can be the
absent-value sentinel), and each missing optional input field resolves to its
documented fallback literal. -/
theorem claim_C3_normalizer_total (a : RawArticle) :
    (a.title = none → (extractEnhancedArticleInfo a).title = "No title available")
    ∧ (a.authors = none → (extractEnhancedArticleInfo a).authors = "No authors listed")
    ∧ (a.pubdate = none → (extractEnhancedArticleInfo a).pub_date = "No date available")
    ∧ (a.fulljournalname = none → a.source = none →
        (extractEnhancedArticleInfo a).journal = "Unknown journal")
    ∧ (a.uid = none → (extractEnhancedArticleInfo a).pmid = "No PMID")
    ∧ (a.pmcid = none → (extractEnhancedArticleInfo a).pmcid = "")
    ∧ (a.elocationid = none → (extractEnhancedArticleInfo a).doi = "")
    ∧ (a.abstract = none → (extractEnhancedArticleInfo a).abstract = "No abstract available")
    ∧ (a.keywords = none → (extractEnhancedArticleInfo a).keywords = "")
    ∧ (a.mesh_terms = none → (extractEnhancedArticleInfo a).mesh_terms = "")
    ∧ (a.pmcid = none → a.pmc_available = false →
        (extractEnhancedArticleInfo a).pmc_available = false) := by
  refine ⟨fun h => ?_, fun h => ?_, fun h => ?_, fun h h2 => ?_, fun h => ?_,
    fun h => ?_, fun h => ?_, fun h => ?_, fun h => ?_, fun h => ?_, fun h h2 => ?_⟩
  all_goals simp [extractEnhancedArticleInfo, jsOrString, *]
  all_goals first
  | (intro hx; exact absurd rfl hx)
  | rfl
  | decide

/-- Witness for C3 at the all-absent raw record: every output field equals its
documented fallback. -/
theorem claim_C3_normalizer_total_witness :
    (extractEnhancedArticleInfo {}).title = "No title available"
    ∧ (extractEnhancedArticleInfo {}).authors = "No authors listed"
    ∧ (extractEnhancedArticleInfo {}).pub_date = "No date available"
    ∧ (extractEnhancedArticleInfo {}).journal = "Unknown journal"
    ∧ (extractEnhancedArticleInfo {}).pmid = "No PMID"
    ∧ (extractEnhancedArticleInfo {}).pmcid = ""
    ∧ (extractEnhancedArticleInfo {}).doi = ""
    ∧ (extractEnhancedArticleInfo {}).abstract = "No abstract available"
    ∧ (extractEnhancedArticleInfo {}).keywords = ""
    ∧ (extractEnhancedArticleInfo {}).mesh_terms = ""
    ∧ (extractEnhancedArticleInfo {}).pmc_available = false :=
  ⟨(claim_C3_normalizer_total {}).1 rfl,
   (claim_C3_normalizer_total {}).2.1 rfl,
   (claim_C3_normalizer_total {}).2.2.1 rfl,
   (claim_C3_normalizer_total {}).2.2.2.1 rfl rfl,
   (claim_C3_normalizer_total {}).2.2.2.2.1 rfl,
   (claim_C3_normalizer_total {}).2.2.2.2.2.1 rfl,
   (claim_C3_normalizer_total {}).2.2.2.2.2.2.1 rfl,
   (claim_C3_normalizer_total {}).2.2.2.2.2.2.2.1 rfl,
   (claim_C3_normalizer_total {}).2.2.2.2.2.2.2.2.1 rfl,
   (claim_C3_normalizer_total {}).2.2.2.2.2.2.2.2.2.1 rfl,
   (claim_C3_normalizer_total {}).2.2.2.2.2.2.2.2.2.2 rfl rfl⟩

/-- C5 (amended): `formatEnhancedArticle` appends the full-text-availability
line only when `pmc_available` is true AND the secondary id `pmcid` is
non-empty (source line 371: `if (pmc_available && pmcid)`).  When `pmcid` is
the empty string the rendering is independent of the `pmc_available` flag, so
no full-text line appears even though the flag is set. -/
theorem claim_C5_fulltext_line (a : ArticleRecord) :
    (a.pmc_available = true → a.pmcid ≠ "" →
      ∃ s t, formatEnhancedArticle a
        = s ++ ("\n🔓 **Full Text Available:** https://www.ncbi.nlm.nih.gov/pmc/articles/"
            ++ a.pmcid ++ "/") ++ t)
    ∧ (a.pmcid = "" →
        formatEnhancedArticle a
          = formatEnhancedArticle { a with pmc_available := false }) := by
  constructor
  · intro h1 h2
    refine ⟨"\n**Title:** " ++ a.title
      ++ "\n**Authors:** " ++ a.authors
      ++ "\n**Journal:** " ++ a.journal ++ " (" ++ a.pub_date ++ ")"
      ++ "\n**PMID:** " ++ a.pmid
      ++ (if a.pmcid != "" then " | **PMCID:** " ++ a.pmcid else "")
      ++ (if a.doi != "" then " | **DOI:** " ++ a.doi else "")
      ++ "\n**Abstract:** " ++ displayAbstract a.abstract,
      (if a.is_open_access then "\n✅ **Open Access**" else "")
      ++ "\n**PubMed Link:** https://pubmed.ncbi.nlm.nih.gov/" ++ a.pmid ++ "/"
      ++ (if a.keywords != "" then "\n**Keywords:** " ++ a.keywords else "")
      ++ (if a.mesh_terms != "" then "\n**MeSH Terms:** " ++ a.mesh_terms else "")
      ++ "\n---", ?_⟩
    have hcond : (a.pmc_available && (a.pmcid != "")) = true := by
      simp [h1, h2]
    simp [formatEnhancedArticle, hcond, strAppendAssoc]
  · intro h
    simp [formatEnhancedArticle, h]

/-- Concrete record with both the flag and a non-empty secondary id. -/
def recWithPmc : ArticleRecord :=
  ⟨"1", "PMC123", "T", "A", "J", "D", "", "Abs", "", "", true, true⟩

/-- Witness for C5's amended theorem: the record with `pmcid = "PMC123"` and
the flag set renders with the full-text-availability line. -/
theorem claim_C5_fulltext_line_witness :
    ∃ s t, formatEnhancedArticle recWithPmc
      = s ++ ("\n🔓 **Full Text Available:** https://www.ncbi.nlm.nih.gov/pmc/articles/"
          ++ recWithPmc.pmcid ++ "/") ++ t :=
  (claim_C5_fulltext_line recWithPmc).1 rfl (by decide)

/-- A raw record whose upstream flag is set but which carries no secondary
id. -/
def rawFlagOnly : RawArticle := { pmc_available := true }

set_option maxRecDepth 100000 in
/-- Counterexample to C5 as stated: for the record whose `pmc_available` flag
is set while the secondary id is empty, the rendered text does not contain the
full-text-availability line (the marker is not an infix of the
rendered character sequence). -/
theorem claim_C5_counterexample :
    (extractEnhancedArticleInfo rawFlagOnly).pmc_available = true
    ∧ (extractEnhancedArticleInfo rawFlagOnly).pmcid = ""
    ∧ ¬ ("Full Text Available".data
          <:+: (formatEnhancedArticle (extractEnhancedArticleInfo rawFlagOnly)).data) := by
  refine ⟨rfl, rfl, ?_⟩
  decide

/-- C8: the presenter renders `displayAbstract` of the record's abstract
(line 361, used at line 368): the rendered abstract segment is the first 800
characters plus the three-character ellipsis marker — 803 characters in all —
exactly when the abstract is longer than 800 characters, and is the abstract
itself otherwise; the canonical record's `abstract` field is produced
untruncated by the normalizer, so it keeps its full length. -/
theorem claim_C8_truncation (a : ArticleRecord) :
    (∃ s t, formatEnhancedArticle a = s ++ displayAbstract a.abstract ++ t)
    ∧ (a.abstract.length > 800 →
        displayAbstract a.abstract = strTake a.abstract 800 ++ "..."
          ∧ (displayAbstract a.abstract).length = 803)
    ∧ (a.abstract.length ≤ 800 → displayAbstract a.abstract = a.abstract)
    ∧ (∀ (r : RawArticle) (s : String), r.abstract = some s → s ≠ "" →
        (extractEnhancedArticleInfo r).abstract = s) := by
  refine ⟨?_, fun h => ⟨?_, ?_⟩, fun h => ?_, fun r s h1 h2 => ?_⟩
  · refine ⟨"\n**Title:** " ++ a.title
      ++ "\n**Authors:** " ++ a.authors
      ++ "\n**Journal:** " ++ a.journal ++ " (" ++ a.pub_date ++ ")"
      ++ "\n**PMID:** " ++ a.pmid
      ++ (if a.pmcid != "" then " | **PMCID:** " ++ a.pmcid else "")
      ++ (if a.doi != "" then " | **DOI:** " ++ a.doi else "")
      ++ "\n**Abstract:** ",
      (if a.pmc_available && (a.pmcid != "") then
        "\n🔓 **Full Text Available:** https://www.ncbi.nlm.nih.gov/pmc/articles/"
          ++ a.pmcid ++ "/"
      else "")
      ++ (if a.is_open_access then "\n✅ **Open Access**" else "")
      ++ "\n**PubMed Link:** https://pubmed.ncbi.nlm.nih.gov/" ++ a.pmid ++ "/"
      ++ (if a.keywords != "" then "\n**Keywords:** " ++ a.keywords else "")
      ++ (if a.mesh_terms != "" then "\n**MeSH Terms:** " ++ a.mesh_terms else "")
      ++ "\n---", ?_⟩
    simp [formatEnhancedArticle, strAppendAssoc]
  · simp [displayAbstract, h]
  · have htake : (strTake a.abstract 800).length = 800 := by
      have hmin : (strTake a.abstract 800).length = min 800 a.abstract.data.length := by
        show (a.abstract.data.take 800).length = min 800 a.abstract.data.length
        exact List.length_take _ _
      have hdat : a.abstract.length = a.abstract.data.length := rfl
      omega
    rw [displayAbstract, if_pos (by exact_mod_cast h), strLengthAppend, htake]
    rfl
  · rw [displayAbstract, if_neg (by omega)]
  · simp [extractEnhancedArticleInfo, jsOrString, h1, h2]

/-- An abstract of exactly 1000 characters. -/
def longAbstract : String := ⟨List.replicate 1000 'a'⟩

/-- A record whose abstract has length 1000. -/
def recLongAbstract : ArticleRecord :=
  ⟨"1", "", "T", "A", "J", "D", "", longAbstract, "", "", false, false⟩

/-- Witness for C8: for the 1000-character abstract the rendered abstract
segment has exactly 803 characters, and the presenter output embeds that
segment. -/
theorem claim_C8_truncation_witness :
    (displayAbstract recLongAbstract.abstract).length = 803
    ∧ (∃ s t, formatEnhancedArticle recLongAbstract
        = s ++ displayAbstract recLongAbstract.abstract ++ t) :=
  ⟨((claim_C8_truncation recLongAbstract).2.1
      (by
        have hlen : recLongAbstract.abstract.length = 1000 := by
          show (List.replicate 1000 'a').length = 1000
          exact List.length_replicate _ _
        omega)).2,
   (claim_C8_truncation recLongAbstract).1⟩

/-- The `max_results` argument as seen by the handlers: a JS number (modelled
as a rational), `NaN`, an absent argument, or a value of non-number type.
Lines 546–548 / 719–721 replace everything but a finite number by the
default 10. -/
inductive MaxResultsInput
  | num (x : ℚ)
  | nan
  | missing
  | nonNumber
deriving DecidableEq, Repr

/-- The numeric value after the default substitution of lines 546–548 /
719–721: a finite number is kept, everything else becomes
`DEFAULT_MAX_RESULTS = 10`. -/
def jsMaxResultsNumber : MaxResultsInput → ℚ
  | .num x => x
  | _ => 10

/-- The clamp of line 549 / line 722:
`Math.max(1, Math.min(Math.floor(Math.abs(maxResults)), cap))` with
`cap = MAX_SEARCH_RESULTS = 500` for PubMed and `cap = 50` for PMC. -/
def validateMaxResults (cap : ℤ) (m : MaxResultsInput) : ℤ :=
  max 1 (min ⌊|jsMaxResultsNumber m|⌋ cap)

/-- The error kind observed by the handlers' catch blocks: a `PubMedError`
(thrown by `makeNcbiRequest` / the parsers) or any other thrown value. -/
inductive JsError
  | pubmed (msg : String)
  | other (msg : String)
deriving DecidableEq, Repr

/-- The text produced by `handleSearchPubmed`'s catch block (lines 615–623). -/
def searchErrorText : JsError → String
  | .pubmed m => "❌ PubMed Error: " ++ m
  | .other m => "❌ An unexpected error occurred: " ++ m

/-- The parsed `esearchresult` member of an esearch response: `count` models
`parseInt(esearchResult.count || '0')` and `idlist` models
`esearchResult.idlist || []`. -/
structure EsearchResult where
  count : Nat
  idlist : List String
deriving DecidableEq, Repr

/-- The success-path text of `handleSearchPubmed` (lines 588–609).
`totalCount.toLocaleString()` is modelled as plain decimal rendering. -/
def pubmedSearchSuccessText (q : String) (count : Nat) (mr : ℤ)
    (articles : List RawArticle) : String :=
  let formattedArticles :=
    articles.map (fun a => formatEnhancedArticle (extractEnhancedArticleInfo a))
  let header0 := "🔬 **Enhanced PubMed Search - Found " ++ toString count
    ++ " result" ++ (if count != 1 then "s" else "") ++ " for:** *" ++ q ++ "*\n"
  let header1 :=
    if (count : ℤ) > mr then
      header0 ++ "📄 **Showing first " ++ toString articles.length ++ " results**\n"
    else header0
  let openAccessCount :=
    (articles.filter (fun a => (extractEnhancedArticleInfo a).pmc_available)).length
  let header2 :=
    if openAccessCount > 0 then
      header1 ++ "🔓 **" ++ toString openAccessCount ++ " full-text article"
        ++ (if openAccessCount != 1 then "s" else "") ++ " available in PMC**\n"
    else header1
  let disclaimer := "\n📋 **Disclaimer:** These results are for informational purposes only and should not be considered medical advice. Consult a healthcare professional for medical concerns."
  header2 ++ "\n" ++ String.intercalate "\n" formattedArticles ++ disclaimer

/-- Embedding of `handleSearchPubmed` (lines 536–624).  Here `esearch` is the oracle for the
esearch remote call (`.error` models a thrown `PubMedError`/other error, `.ok
none` a response without an `esearchresult` member); `efetchChunk` is the
per-chunk efetch+parse oracle consumed by `fetchDetailedArticles`.  The
handler always returns a text payload: the catch block (lines 615–623)
converts any error thrown by the remote steps into `searchErrorText`. -/
def handleSearchPubmed (esearch : String → ℤ → Except JsError (Option EsearchResult))
    (efetchChunk : List String → Except String (List RawArticle))
    (query : String) (maxResults : MaxResultsInput) : String :=
  if jsTrim query == "" then "❌ Please provide a search query."
  else
    let q := jsTrim query
    let mr := validateMaxResults 500 maxResults
    match esearch q mr with
    | .error e => searchErrorText e
    | .ok none => "🔍 No results found for query: **" ++ q ++ "**"
    | .ok (some es) =>
      if es.count = 0 then "🔍 No results found for query: **" ++ q ++ "**"
      else
        let articles := fetchDetailedArticles efetchChunk (es.idlist.take mr.toNat)
        if articles.isEmpty then
          "❌ No article details could be retrieved for query: **" ++ q ++ "**"
        else pubmedSearchSuccessText q es.count mr articles

/-- The `pmid` argument of `get_full_abstract`: a JS number or a string. -/
inductive PmidInput
  | num (n : Int)
  | str (s : String)
deriving DecidableEq, Repr

/-- JS falsiness of the `pmid` argument (line 628: `if (!pmid)`): the number 0
and the empty string are falsy. -/
def pmidFalsy : PmidInput → Bool
  | .num n => n == 0
  | .str s => s == ""

/-- JS `String(pmid)` (line 635). -/
def pmidToString : PmidInput → String
  | .num n => toString n
  | .str s => s

/-- The double-quote character (written via its code point). -/
def quoteChar : Char := Char.ofNat 34

/-- The single-quote character (written via its code point). -/
def apos : Char := Char.ofNat 39

/-- Whether the first character of `s` is `c` (JS `startsWith` for a
one-character pattern). -/
def headIs (s : String) (c : Char) : Bool :=
  match s.data with
  | [] => false
  | d :: _ => d == c

/-- Whether the last character of `s` is `c` (JS `endsWith` for a
one-character pattern). -/
def lastIs (s : String) (c : Char) : Bool :=
  match s.data.getLast? with
  | none => false
  | some d => d == c

/-- The quote unwrapping of lines 638–641: one matching pair of surrounding
double or single quotes is removed (`slice(1, -1)`). -/
def stripQuotes (t : String) : String :=
  if (headIs t quoteChar && lastIs t quoteChar) || (headIs t apos && lastIs t apos)
  then strDropRight (strDrop t 1) 1
  else t

/-- The `^\d+$` test of line 644: non-empty and all characters decimal
digits. -/
def isNumericString (s : String) : Bool :=
  !s.data.isEmpty && s.data.all Char.isDigit

/-- The success text of `handleGetFullAbstract` (lines 673–691). -/
def fullAbstractText (pmidStr : String) (i : ArticleRecord) : String :=
  "\n**📄 Complete Abstract for PMID: " ++ pmidStr ++ "**\n\n**Title:** " ++ i.title
  ++ "\n**Authors:** " ++ i.authors
  ++ "\n**Journal:** " ++ i.journal ++ " (" ++ i.pub_date ++ ")"
  ++ "\n\n**Abstract:**\n" ++ i.abstract
  ++ "\n\n**PubMed Link:** https://pubmed.ncbi.nlm.nih.gov/" ++ pmidStr ++ "/"
  ++ (if i.keywords != "" then "\n**Keywords:** " ++ i.keywords else "")
  ++ (if i.mesh_terms != "" then "\n**MeSH Terms:** " ++ i.mesh_terms else "")

/-- Embedding of `handleGetFullAbstract` (lines 627–706), returning the text payload
together with the list of efetch calls issued (empty on every validation
reject, so rejection provably happens before any remote call). -/
def handleGetFullAbstract (efetchChunk : List String → Except String (List RawArticle))
    (pmid : PmidInput) : String × List (List String) :=
  if pmidFalsy pmid then ("❌ Please provide a valid PMID.", [])
  else
    let pmidStr := stripQuotes (jsTrim (pmidToString pmid))
    if !(isNumericString pmidStr) then
      ("❌ Invalid PMID format: " ++ pmidToString pmid ++ ". PMID should be a number.", [])
    else
      match (fetchDetailedArticlesRun efetchChunk [pmidStr]).articles with
      | [] => ("❌ No article found for PMID: " ++ pmidStr,
               (fetchDetailedArticlesRun efetchChunk [pmidStr]).calls)
      | a :: _ => (fullAbstractText pmidStr (extractEnhancedArticleInfo a),
                   (fetchDetailedArticlesRun efetchChunk [pmidStr]).calls)

/-- The text produced by `handleSearchPmcFulltext`'s catch block
(lines 748–756). -/
def pmcErrorText : JsError → String
  | .pubmed m => "❌ PMC Error: " ++ m
  | .other m => "❌ An unexpected error occurred: " ++ m

/-- One entry of the esummary `result` object consumed by `search_pmc`
(lines 794–805): either a JS object (modelled with the same raw-record shape
that the downstream formatter consumes) or a non-object value. -/
inductive SummaryVal
  | obj (a : RawArticle)
  | nonObj
deriving DecidableEq, Repr

/-- JS truthiness of `articleData.uid` (line 798): present and non-empty. -/
def uidTruthy (a : RawArticle) : Bool :=
  match a.uid with
  | some s => s != ""
  | none => false

/-- The result-collection loop of `search_pmc` (lines 794–805): for each id of
the esearch id list, include the esummary entry keyed by that id only when it
exists, is an object and has a truthy `uid`; included entries are marked
`is_pmc = true` and given `pmcid = "PMC" + id`.  Ids failing the test are
skipped with no failure record of any kind. -/
def pmcLoop (result : List (String × SummaryVal)) : List String → List RawArticle
  | [] => []
  | pmcId :: rest =>
    match result.lookup pmcId with
    | some (.obj a) =>
      if uidTruthy a then
        { a with is_pmc := true, pmcid := some ("PMC" ++ pmcId) } :: pmcLoop result rest
      else pmcLoop result rest
    | some .nonObj => pmcLoop result rest
    | none => pmcLoop result rest

/-- Embedding of `search_pmc` (lines 760–808): esearch against the PMC database, then an
esummary call for the returned id list, then the collection loop.  `.error`
models a thrown `PubMedError`; `.ok none` a response missing the expected
member (`esearchresult` / `result`). -/
def search_pmc (esearchPmc : String → ℤ → Except JsError (Option EsearchResult))
    (esummary : List String → Except JsError (Option (List (String × SummaryVal))))
    (query : String) (maxResults : ℤ) : Except JsError (List RawArticle) :=
  match esearchPmc query maxResults with
  | .error e => .error e
  | .ok none => .ok []
  | .ok (some es) =>
    if es.idlist.isEmpty then .ok []
    else
      match esummary es.idlist with
      | .error e => .error e
      | .ok none => .ok []
      | .ok (some result) => .ok (pmcLoop result es.idlist)

/-- The success-path text of `handleSearchPmcFulltext` (lines 733–742). -/
def pmcSearchSuccessText (q : String) (articles : List RawArticle) : String :=
  let formattedArticles :=
    articles.map (fun a => formatEnhancedArticle (extractEnhancedArticleInfo a))
  let header := "📖 **PMC Full-Text Search - Found " ++ toString articles.length
    ++ " result" ++ (if articles.length != 1 then "s" else "") ++ " for:** *" ++ q
    ++ "*\n" ++ "🔓 **All results have full text available**\n"
  let note := "\n📖 **Note:** These are open access articles with full text available in PMC. Click the PMC links to access complete articles."
  header ++ "\n" ++ String.intercalate "\n" formattedArticles ++ note

/-- Embedding of `handleSearchPmcFulltext` (lines 709–757): trims and validates the query,
clamps `max_results` with cap 50 (line 722), runs `search_pmc`, and converts
any thrown error into a text payload via the catch block. -/
def handleSearchPmcFulltext
    (esearchPmc : String → ℤ → Except JsError (Option EsearchResult))
    (esummary : List String → Except JsError (Option (List (String × SummaryVal))))
    (query : String) (maxResults : MaxResultsInput) : String :=
  if jsTrim query == "" then "❌ Please provide a search query."
  else
    let q := jsTrim query
    let mr := validateMaxResults 50 maxResults
    match search_pmc esearchPmc esummary q mr with
    | .error e => pmcErrorText e
    | .ok [] => "🔍 No full-text articles found in PMC for query: **" ++ q ++ "**"
    | .ok (a :: rest) => pmcSearchSuccessText q (a :: rest)

/-- One queued run of the body of `rateLimitedRequest` (lines 55–67), observed
through its two clock readings: `now1` is `Date.now()` at entry (line 58) and
`now2` is `Date.now()` after the conditional sleep (line 65).  The grant
time — the moment the caller proceeds and `lastRequestTime` is updated — is
`now2`. -/
structure AcquireObs where
  now1 : Nat
  now2 : Nat
deriving DecidableEq, Repr

/-- The grant produced by one run: the new `lastRequestTime` (line 65); it
does not depend on the previous value. -/
def acquireGrant (_last : Nat) (o : AcquireObs) : Nat := o.now2

/-- Environment assumptions for one run given the previous `lastRequestTime`:
the clock is monotone (`last ≤ now1`, since `last` was read from the same
clock by the previous queued run), and `setTimeout(RATE_LIMIT_DELAY -
timeSinceLastRequest)` does not wake early — when line 61's test fires, the
second reading is at least `now1 + (340 - (now1 - last))`; otherwise it is at
least `now1`. -/
def obsValid (last : Nat) (o : AcquireObs) : Bool :=
  decide (last ≤ o.now1)
    && (if o.now1 - last < 340 then
          decide (o.now1 + (340 - (o.now1 - last)) ≤ o.now2)
        else decide (o.now1 ≤ o.now2))

/-- The grant times of a sequence of queued `rateLimitedRequest` runs, in
queue (FIFO) order; the `requestQueue` promise chain of lines 53–57 executes
the bodies strictly one after another, which the sequential recursion models.
`lastRequestTime` starts at 0 (line 52). -/
def grantTimes : Nat → List AcquireObs → List Nat
  | _, [] => []
  | last, o :: os => acquireGrant last o :: grantTimes (acquireGrant last o) os

/-- Validity of a whole trace of queued runs. -/
def validTrace : Nat → List AcquireObs → Bool
  | _, [] => true
  | last, o :: os => obsValid last o && validTrace (acquireGrant last o) os

theorem acquireGrant_ge (last : Nat) (o : AcquireObs) (h : obsValid last o = true) :
    last + 340 ≤ acquireGrant last o := by
  by_cases hlt : o.now1 - last < 340
  · simp only [obsValid, hlt, if_true, Bool.and_eq_true, decide_eq_true_eq] at h
    simp only [acquireGrant]
    omega
  · simp only [obsValid, hlt, if_false, Bool.and_eq_true, decide_eq_true_eq] at h
    simp only [acquireGrant]
    omega

theorem grantTimes_chain (os : List AcquireObs) :
    ∀ last : Nat, validTrace last os = true →
      List.Chain (fun a b => a + 340 ≤ b) last (grantTimes last os) := by
  induction os with
  | nil => intro _ _; exact List.Chain.nil
  | cons o os ih =>
    intro last h
    simp only [validTrace, Bool.and_eq_true] at h
    exact List.Chain.cons (acquireGrant_ge last o h.1) (ih _ h.2)

theorem fetchChunks_single (f : List String → Except String (List α))
    (fuel i : Nat) (x : String) :
    fetchChunks f (fuel + 1) i [x]
      = match f [x] with
        | .ok arts => ⟨arts, [], [[x]]⟩
        | .error e => ⟨[], [⟨i, i, [x], e⟩], [[x]]⟩ := by
  have ht : ([x] : List String).take 200 = [x] := rfl
  have hd : ([x] : List String).drop 200 = ([] : List String) := rfl
  cases hf : f [x] with
  | ok arts =>
    simp only [fetchChunks, ht, hd, hf]
    simp [fetchChunks]
  | error e =>
    simp only [fetchChunks, ht, hd, hf]
    simp [fetchChunks]

theorem fetchRun_single (f : List String → Except String (List α)) (x : String) :
    fetchDetailedArticlesRun f [x]
      = match f [x] with
        | .ok arts => ⟨arts, [], [[x]]⟩
        | .error e => ⟨[], [⟨0, 0, [x], e⟩], [[x]]⟩ := by
  have h1 : fetchDetailedArticlesRun f [x] = fetchChunks f (0 + 1) 0 [x] := by
    simp [fetchDetailedArticlesRun]
  rw [h1, fetchChunks_single]

/-- C4 (amended): for every input, the handlers' `max_results` validation
(`validateMaxResults`, embedding lines 546–549 and 719–722) yields a value in
[1, 500] for PubMed queries and in [1, 50] for PMC queries, and a NaN,
missing or non-number input yields the default 10.  (A negative number is
first sent through `Math.abs`, so −7 yields 7, not 1 — see the
counterexample.) -/
theorem claim_C4_max_results (m : MaxResultsInput) :
    (1 ≤ validateMaxResults 500 m ∧ validateMaxResults 500 m ≤ 500)
    ∧ (1 ≤ validateMaxResults 50 m ∧ validateMaxResults 50 m ≤ 50)
    ∧ (m = .nan ∨ m = .missing ∨ m = .nonNumber →
        validateMaxResults 500 m = 10 ∧ validateMaxResults 50 m = 10) := by
  refine ⟨⟨le_max_left _ _, ?_⟩, ⟨le_max_left _ _, ?_⟩, ?_⟩
  · exact max_le (by norm_num) (min_le_right _ _)
  · exact max_le (by norm_num) (min_le_right _ _)
  · rintro (rfl | rfl | rfl) <;> exact ⟨by decide, by decide⟩

/-- Witness for C4's amended theorem: a missing `max_results` defaults to 10
in both handlers. -/
theorem claim_C4_max_results_witness :
    validateMaxResults 500 MaxResultsInput.missing = 10
    ∧ validateMaxResults 50 MaxResultsInput.missing = 10 :=
  (claim_C4_max_results .missing).2.2 (Or.inr (Or.inl rfl))

/-- Counterexample to C4 as stated: `maxResults = -7` is mapped through
`Math.floor(Math.abs(·))` before clamping (lines 549 and 722), so it becomes
7, not the claimed 1, in both handlers. -/
theorem claim_C4_counterexample :
    validateMaxResults 500 (.num (-7)) = 7
    ∧ validateMaxResults 500 (.num (-7)) ≠ 1
    ∧ validateMaxResults 50 (.num (-7)) = 7 :=
  ⟨by decide, by decide, by decide⟩

/-- C6: `handleGetFullAbstract` accepts a quoted numeric id, unwrapping one
matching pair of surrounding quotes (the quoted input issues exactly one
remote call carrying the unwrapped id), and rejects every input whose cleaned
form fails `^\d+$` with a user-facing error and zero remote calls; when the
input is not JS-falsy the reject message is precisely the invalid-format
message. -/
theorem claim_C6_pmid_validation
    (efetchChunk : List String → Except String (List RawArticle)) (p : PmidInput) :
    (handleGetFullAbstract efetchChunk (.str "\"35504917\"")).2 = [["35504917"]]
    ∧ stripQuotes (jsTrim (pmidToString (.str "\"35504917\""))) = "35504917"
    ∧ (isNumericString (stripQuotes (jsTrim (pmidToString p))) = false →
        (handleGetFullAbstract efetchChunk p).2 = []
        ∧ ((handleGetFullAbstract efetchChunk p).1 = "❌ Please provide a valid PMID."
          ∨ (handleGetFullAbstract efetchChunk p).1
            = "❌ Invalid PMID format: " ++ pmidToString p ++ ". PMID should be a number."))
    ∧ (pmidFalsy p = false →
        isNumericString (stripQuotes (jsTrim (pmidToString p))) = false →
        (handleGetFullAbstract efetchChunk p).1
          = "❌ Invalid PMID format: " ++ pmidToString p ++ ". PMID should be a number.") := by
  have hkey : handleGetFullAbstract efetchChunk (.str "\"35504917\"")
      = (match (fetchDetailedArticlesRun efetchChunk ["35504917"]).articles with
         | [] => ("❌ No article found for PMID: 35504917",
                  (fetchDetailedArticlesRun efetchChunk ["35504917"]).calls)
         | a :: _ => (fullAbstractText "35504917" (extractEnhancedArticleInfo a),
                      (fetchDetailedArticlesRun efetchChunk ["35504917"]).calls)) := rfl
  refine ⟨?_, rfl, ?_, ?_⟩
  · rw [hkey, fetchRun_single]
    cases hf : efetchChunk ["35504917"] with
    | ok arts => cases arts <;> rfl
    | error e => rfl
  · intro hnum
    by_cases hfal : pmidFalsy p = true
    · constructor
      · simp [handleGetFullAbstract, hfal]
      · left
        simp [handleGetFullAbstract, hfal]
    · rw [Bool.not_eq_true] at hfal
      constructor
      · simp [handleGetFullAbstract, hfal, hnum]
      · right
        simp [handleGetFullAbstract, hfal, hnum]
  · intro hfal hnum
    simp [handleGetFullAbstract, hfal, hnum]

/-- Concrete oracle: every efetch chunk succeeds with no parsed articles. -/
def efetchEmpty : List String → Except String (List RawArticle) := fun _ => .ok []

/-- Witness for C6: the quoted input `"35504917"` is accepted, unwrapped and
fetched; the input `"abc"` is rejected with the format error and no remote
call. -/
theorem claim_C6_pmid_validation_witness :
    (handleGetFullAbstract efetchEmpty (.str "\"35504917\"")).2 = [["35504917"]]
    ∧ (handleGetFullAbstract efetchEmpty (.str "abc")).2 = []
    ∧ (handleGetFullAbstract efetchEmpty (.str "abc")).1
        = "❌ Invalid PMID format: abc. PMID should be a number." :=
  ⟨(claim_C6_pmid_validation efetchEmpty (.str "abc")).1,
   ((claim_C6_pmid_validation efetchEmpty (.str "abc")).2.2.1 (by decide)).1,
   (claim_C6_pmid_validation efetchEmpty (.str "abc")).2.2.2 (by decide) (by decide)⟩

/-- C7: every remote-access error in the search and fetch-by-id paths is
converted into a user-facing text payload; the handlers are total functions
into text, so no error escapes as a protocol-level fault.  For the search
handler, an esearch error (timeout, bad status, transport or parse failure —
any `PubMedError`, and any other thrown value) surfaces as the catch block's
text; for the fetch-by-id handler, a failing efetch chunk is absorbed by the
batch fetcher and surfaces as the "no article found" text. -/
theorem claim_C7_error_conversion
    (esearch : String → ℤ → Except JsError (Option EsearchResult))
    (efetchChunk efetch2 : List String → Except String (List RawArticle))
    (query : String) (m : MaxResultsInput) (e : JsError) (p : PmidInput) (msg : String) :
    (jsTrim query ≠ "" →
      esearch (jsTrim query) (validateMaxResults 500 m) = .error e →
      handleSearchPubmed esearch efetchChunk query m = searchErrorText e)
    ∧ (pmidFalsy p = false →
        isNumericString (stripQuotes (jsTrim (pmidToString p))) = true →
        efetch2 [stripQuotes (jsTrim (pmidToString p))] = .error msg →
        (handleGetFullAbstract efetch2 p).1
          = "❌ No article found for PMID: " ++ stripQuotes (jsTrim (pmidToString p))) := by
  constructor
  · intro h1 h2
    have hq : (jsTrim query == "") = false := by
      simp [h1]
    simp [handleSearchPubmed, hq, h2]
  · intro hfal hnum herr
    simp [handleGetFullAbstract, hfal, hnum, fetchRun_single, herr]

/-- Concrete oracle: esearch always fails with the timeout `PubMedError`. -/
def esearchTimeout : String → ℤ → Except JsError (Option EsearchResult) :=
  fun _ _ => .error (.pubmed "Request timed out. Please try again.")

/-- Concrete oracle: every efetch chunk fails. -/
def efetchBoom : List String → Except String (List RawArticle) :=
  fun _ => .error "boom"

/-- Witness for C7 at concrete failing oracles: the search handler returns
the converted error text, and the fetch-by-id handler returns the
"no article found" text. -/
theorem claim_C7_error_conversion_witness :
    handleSearchPubmed esearchTimeout efetchBoom "covid" .missing
      = "❌ PubMed Error: Request timed out. Please try again."
    ∧ (handleGetFullAbstract efetchBoom (.str "42")).1
        = "❌ No article found for PMID: 42" :=
  ⟨(claim_C7_error_conversion esearchTimeout efetchBoom efetchBoom "covid" .missing
      (.pubmed "Request timed out. Please try again.") (.str "42") "boom").1
      (by decide) rfl,
   (claim_C7_error_conversion esearchTimeout efetchBoom efetchBoom "covid" .missing
      (.pubmed "Request timed out. Please try again.") (.str "42") "boom").2
      rfl (by decide) rfl⟩

/-- C9: under the clock assumptions of `obsValid` (monotone clock, sleeps not
waking early) and the FIFO serialization of the `requestQueue` promise chain
(modelled by the sequential recursion of `grantTimes`), the grant times of any
sequence of queued `rateLimitedRequest` calls are spaced at least
`RATE_LIMIT_DELAY = 340` ms apart and are non-decreasing, in queue order. -/
theorem claim_C9_rate_limiter (os : List AcquireObs) (h : validTrace 0 os = true) :
    List.Chain' (fun a b => a + 340 ≤ b) (grantTimes 0 os)
    ∧ List.Chain' (fun a b => a ≤ b) (grantTimes 0 os) := by
  have hchain := grantTimes_chain os 0 h
  have h1 : List.Chain' (fun a b => a + 340 ≤ b) (grantTimes 0 os) := by
    cases hg : grantTimes 0 os with
    | nil => trivial
    | cons g rest =>
      rw [hg] at hchain
      exact (List.chain_cons.mp hchain).2
  exact ⟨h1, h1.imp fun a b hab => by omega⟩

/-- Witness for C9: a concrete two-call trace — the second caller arrives
100 ms after the first grant and is delayed to exactly 340 ms after it. -/
theorem claim_C9_rate_limiter_witness :
    List.Chain' (fun a b => a + 340 ≤ b) (grantTimes 0 [⟨1000, 1000⟩, ⟨1100, 1340⟩]) :=
  (claim_C9_rate_limiter [⟨1000, 1000⟩, ⟨1100, 1340⟩] (by decide)).1

/-- A concrete esummary `result` object that has entries for ids "1" and "3"
but none for "2". -/
def summaryStub : List (String × SummaryVal) :=
  [("1", .obj { uid := some "101" }), ("3", .obj { uid := some "103" })]

/-- Concrete esearch oracle for the PMC database returning ids "1", "2",
"3". -/
def esearchPmcStub : String → ℤ → Except JsError (Option EsearchResult) :=
  fun _ _ => .ok (some ⟨3, ["1", "2", "3"]⟩)

/-- Concrete esummary oracle returning `summaryStub`. -/
def esummaryStub : List String → Except JsError (Option (List (String × SummaryVal))) :=
  fun _ => .ok (some summaryStub)

/-- C10: the `search_pmc` collection loop includes an id exactly when the
summary holds an object entry with a truthy `uid` for it, marking the record
`is_pmc` and `pmcid = "PMC" + id`; ids whose entries are missing, non-objects
or `uid`-less are silently dropped (the output is a plain record list, with no
failure entry, count or message for them), so the result can be strictly
shorter than the id list — as in the concrete run where ids "1","2","3" yield
only 2 records because "2" has no summary entry. -/
theorem claim_C10_pmc_filter (result : List (String × SummaryVal)) (ids : List String) :
    pmcLoop result ids
      = ids.filterMap (fun pmcId =>
          match result.lookup pmcId with
          | some (.obj a) =>
            if uidTruthy a then
              some { a with is_pmc := true, pmcid := some ("PMC" ++ pmcId) }
            else none
          | some .nonObj => none
          | none => none)
    ∧ (pmcLoop result ids).length ≤ ids.length
    ∧ search_pmc esearchPmcStub esummaryStub "q" 10
        = .ok (pmcLoop summaryStub ["1", "2", "3"])
    ∧ (pmcLoop summaryStub ["1", "2", "3"]).length = 2 := by
  have hfm : ∀ l : List String,
      pmcLoop result l
        = l.filterMap (fun pmcId =>
            match result.lookup pmcId with
            | some (.obj a) =>
              if uidTruthy a then
                some { a with is_pmc := true, pmcid := some ("PMC" ++ pmcId) }
              else none
            | some .nonObj => none
            | none => none) := by
    intro l
    induction l with
    | nil => rfl
    | cons i rest ih =>
      cases hl : result.lookup i with
      | none => simp [pmcLoop, hl, List.filterMap_cons, ih]
      | some v =>
        cases v with
        | obj a =>
          by_cases hu : uidTruthy a = true
          · simp [pmcLoop, hl, hu, List.filterMap_cons, ih]
          · rw [Bool.not_eq_true] at hu
            simp [pmcLoop, hl, hu, List.filterMap_cons, ih]
        | nonObj => simp [pmcLoop, hl, List.filterMap_cons, ih]
  refine ⟨hfm ids, ?_, rfl, rfl⟩
  rw [hfm ids]
  exact List.length_filterMap_le _ _
